import Mathlib

/-
Verification of spring-petals: a layered, animated WebGL background
(scene orchestrator, GPU resource loader, fog band, wind-sway sprites,
pulsing glow mask, instanced sakura particles).

Shallow embedding notes:
- Shader float arithmetic is idealized as real arithmetic; the shader
  constant PI (the float literal 3.141592653589793) is idealized as
  Real.pi, and GLSL sin as Real.sin.
- Host-side pixel arithmetic (canvas resize) is embedded over the
  rationals; JS Math.round x is floor (x + 1/2), and the JS expression
  (devicePixelRatio or-else 1) maps 0 (the only falsy number modelled)
  to 1.
- Effectful WebGL code is embedded as pure functions that return the
  list of GL commands they would issue, so that a call being a no-op is
  the statement that it emits the empty command list.
- The asynchronous orchestration (Promise.all over the layer readiness
  promises gating the render loop) is embedded as an inductive validity
  predicate on event traces, newest event first.
-/

namespace SpringPetals

/-! ## GLSL built-ins shared by the shader embeddings -/

namespace Glsl

/-- GLSL clamp(x, lo, hi). -/
noncomputable def clamp (x lo hi : ℝ) : ℝ := min (max x lo) hi

/-- GLSL smoothstep(e0, e1, x): clamped Hermite interpolation. -/
noncomputable def smoothstep (e0 e1 x : ℝ) : ℝ :=
  let t := clamp ((x - e0) / (e1 - e0)) 0 1
  t * t * (3 - 2 * t)

/-- GLSL mix(a, b, t): linear interpolation. -/
noncomputable def mix (a b t : ℝ) : ℝ := a * (1 - t) + b * t

/-- GLSL step(edge, x). -/
noncomputable def step (edge x : ℝ) : ℝ := if x < edge then 0 else 1

/-- GLSL fract(x) = x - floor x. -/
noncomputable def fract (x : ℝ) : ℝ := Int.fract x

theorem smoothstep_of_ge (e0 e1 x : ℝ) (h0 : e0 < e1) (h1 : e1 ≤ x) :
    smoothstep e0 e1 x = 1 := by
  have hd : 0 < e1 - e0 := by linarith
  have ht : 1 ≤ (x - e0) / (e1 - e0) := by
    rw [le_div_iff₀ hd]; linarith
  have hmax : max ((x - e0) / (e1 - e0)) 0 = (x - e0) / (e1 - e0) :=
    max_eq_left (by linarith)
  have hmin : min ((x - e0) / (e1 - e0)) 1 = 1 := min_eq_right ht
  simp only [smoothstep, clamp, hmax, hmin]
  ring

theorem smoothstep_of_le (e0 e1 x : ℝ) (h0 : e0 < e1) (h1 : x ≤ e0) :
    smoothstep e0 e1 x = 0 := by
  have hd : 0 < e1 - e0 := by linarith
  have ht : (x - e0) / (e1 - e0) ≤ 0 :=
    div_nonpos_of_nonpos_of_nonneg (by linarith) (le_of_lt hd)
  have hmax : max ((x - e0) / (e1 - e0)) 0 = 0 := max_eq_right ht
  have hmin : min (0 : ℝ) 1 = 0 := min_eq_left (by norm_num)
  simp only [smoothstep, clamp, hmax, hmin]
  ring

end Glsl

/-! ## GPU resource loader (src/fx/gl.ts) -/

namespace Gl

/-- Resource-lifecycle WebGL commands issued by the loader. -/
inductive GLResCmd where
  | createShaderCmd (id : Nat)
  | shaderSourceCmd (id : Nat)
  | compileShaderCmd (id : Nat)
  | deleteShaderCmd (id : Nat)
  | createProgramCmd (id : Nat)
  | attachShaderCmd (program shader : Nat)
  | linkProgramCmd (id : Nat)
  | deleteProgramCmd (id : Nat)
  deriving DecidableEq

/-- Outcomes of the WebGL driver calls made by createProgram: whether each
allocation returns null, whether each compile/link status query succeeds, and
the (nullable) info logs. -/
structure GLLinkEnv where
  programNull : Bool
  vsNull : Bool
  fsNull : Bool
  vsCompileOk : Bool
  fsCompileOk : Bool
  linkOk : Bool
  vsLog : Option String
  fsLog : Option String
  linkLog : Option String

/-- createShader from gl.ts: allocate, source, compile; on compile failure
delete the shader and throw the compiler log. Returns the result together with
the list of resource commands issued. -/
def createShader (isNull compileOk : Bool) (log : Option String) (id : Nat) :
    Except String Nat × List GLResCmd :=
  if isNull then (Except.error "Unable to create shader", [GLResCmd.createShaderCmd id])
  else if compileOk then
    (Except.ok id,
      [GLResCmd.createShaderCmd id, GLResCmd.shaderSourceCmd id, GLResCmd.compileShaderCmd id])
  else
    (Except.error (log.getD "Shader compile error"),
      [GLResCmd.createShaderCmd id, GLResCmd.shaderSourceCmd id, GLResCmd.compileShaderCmd id,
        GLResCmd.deleteShaderCmd id])

/-- createProgram from gl.ts. The program gets id 0, the vertex shader id 1,
the fragment shader id 2. Compiles both shaders, attaches, links, deletes both
shader objects, then checks LINK_STATUS: on failure deletes the program and
throws the linker log, on success returns the program. -/
def createProgram (env : GLLinkEnv) : Except String Nat × List GLResCmd :=
  if env.programNull then
    (Except.error "Unable to create program", [GLResCmd.createProgramCmd 0])
  else
    match createShader env.vsNull env.vsCompileOk env.vsLog 1 with
    | (Except.error e, cs) => (Except.error e, GLResCmd.createProgramCmd 0 :: cs)
    | (Except.ok vs, cs1) =>
      match createShader env.fsNull env.fsCompileOk env.fsLog 2 with
      | (Except.error e, cs2) =>
        (Except.error e, GLResCmd.createProgramCmd 0 :: (cs1 ++ cs2))
      | (Except.ok fs, cs2) =>
        let linked := GLResCmd.createProgramCmd 0 :: (cs1 ++ cs2 ++
          [GLResCmd.attachShaderCmd 0 vs, GLResCmd.attachShaderCmd 0 fs,
            GLResCmd.linkProgramCmd 0, GLResCmd.deleteShaderCmd vs,
            GLResCmd.deleteShaderCmd fs])
        if env.linkOk then (Except.ok 0, linked)
        else (Except.error ((env.linkLog).getD "Program link error"),
          linked ++ [GLResCmd.deleteProgramCmd 0])

end Gl

/-- Claim C8: createProgram deletes both intermediate shader objects regardless
of whether linking succeeds; on link failure it additionally deletes the
program and throws an error carrying the linker log, and on success it returns
the linked program handle. -/
theorem gl_createProgram_releases_shaders (env : Gl.GLLinkEnv)
    (hp : env.programNull = false) (hv : env.vsNull = false) (hf : env.fsNull = false)
    (hvc : env.vsCompileOk = true) (hfc : env.fsCompileOk = true) :
    Gl.GLResCmd.deleteShaderCmd 1 ∈ (Gl.createProgram env).2 ∧
    Gl.GLResCmd.deleteShaderCmd 2 ∈ (Gl.createProgram env).2 ∧
    (env.linkOk = true → (Gl.createProgram env).1 = Except.ok 0 ∧
      Gl.GLResCmd.deleteProgramCmd 0 ∉ (Gl.createProgram env).2) ∧
    (env.linkOk = false →
      (Gl.createProgram env).1 = Except.error ((env.linkLog).getD "Program link error") ∧
      Gl.GLResCmd.deleteProgramCmd 0 ∈ (Gl.createProgram env).2) := by
  cases hl : env.linkOk <;>
    simp [Gl.createProgram, Gl.createShader, hp, hv, hf, hvc, hfc, hl]

/-- Witness for C8 at a concrete driver environment where both shaders compile
and the link succeeds. -/
theorem gl_createProgram_releases_shaders_witness :
    Gl.GLResCmd.deleteShaderCmd 1 ∈
      (Gl.createProgram ⟨false, false, false, true, true, true, none, none, none⟩).2 ∧
    Gl.GLResCmd.deleteShaderCmd 2 ∈
      (Gl.createProgram ⟨false, false, false, true, true, true, none, none, none⟩).2 ∧
    (Gl.createProgram ⟨false, false, false, true, true, true, none, none, none⟩).1 =
      Except.ok 0 := by
  have h := gl_createProgram_releases_shaders
    ⟨false, false, false, true, true, true, none, none, none⟩ rfl rfl rfl rfl rfl
  exact ⟨h.1, h.2.1, (h.2.2.1 rfl).1⟩

/-! ## Scene orchestrator (src/fx/scene.ts): frame pacing and canvas resize -/

namespace Scene

/-- One invocation of the render callback (scene.ts lines 47-67), restricted to
its pacing decision. State is lastFrameTime; input is the callback timestamp
now. Returns (frame accepted, new lastFrameTime, a new animation callback was
requested). Both branches of the source request a new callback. -/
def renderStep (minFrameTime last now : ℚ) : Bool × ℚ × Bool :=
  if 0 < minFrameTime ∧ now - last < minFrameTime then (false, last, true)
  else (true, now, true)

/-- Timestamps of the accepted frames when the render callback is fed the given
sequence of callback timestamps, threading lastFrameTime through renderStep. -/
def acceptedTimes (minFrameTime : ℚ) : ℚ → List ℚ → List ℚ
  | _, [] => []
  | last, now :: rest =>
    let r := renderStep minFrameTime last now
    if r.1 then now :: acceptedTimes minFrameTime r.2.1 rest
    else acceptedTimes minFrameTime r.2.1 rest

theorem acceptedTimes_chain (m : ℚ) (hm : 0 < m) :
    ∀ (nows : List ℚ) (last : ℚ),
      List.Chain (fun a b => m ≤ b - a) last (acceptedTimes m last nows) := by
  intro nows
  induction nows with
  | nil => intro last; simp [acceptedTimes]
  | cons now rest ih =>
    intro last
    by_cases hc : now - last < m
    · have hr : acceptedTimes m last (now :: rest) = acceptedTimes m last rest := by
        simp [acceptedTimes, renderStep, hm, hc]
      rw [hr]; exact ih last
    · have hge : m ≤ now - last := not_lt.mp hc
      have hr : acceptedTimes m last (now :: rest) = now :: acceptedTimes m now rest := by
        simp [acceptedTimes, renderStep, hm, hc]
      rw [hr]; exact List.Chain.cons hge (ih now)

/-- JS Math.round for nonnegative-or-any input: floor (x + 1/2). -/
def jsRound (x : ℚ) : ℤ := ⌊x + 1 / 2⌋

/-- resizeCanvas from scene.ts lines 73-82. Inputs: current backing-store
size (cw, ch), layout size (w, h) from getBoundingClientRect, and the device
pixel ratio d (where d = 0 stands for the falsy case of the JS or-else).
Returns the new backing-store size and whether the canvas width/height
properties were reassigned. -/
def resizeCanvas (cw ch : ℤ) (w h d : ℚ) : ℤ × ℤ × Bool :=
  let dpr := min (if d = 0 then 1 else d) 2
  let targetWidth := max 1 (jsRound (w * dpr))
  let targetHeight := max 1 (jsRound (h * dpr))
  if cw ≠ targetWidth ∨ ch ≠ targetHeight then (targetWidth, targetHeight, true)
  else (cw, ch, false)

/-- Modelled from the amended spec words: the backing-store dimension for one
axis is max 1 (round (layoutSize * min dpr 2)), with a zero (falsy) device
pixel ratio falling back to 1. -/
def resizeSpecTarget (v d : ℚ) : ℤ :=
  max 1 (jsRound (v * min (if d = 0 then 1 else d) 2))

end Scene

/-- Claim C2: with target frame rate F, a callback arriving less than 1000/F ms
after the last accepted frame performs no draw and immediately requests a new
callback leaving lastFrameTime unchanged; a callback at or after the interval
is accepted and updates lastFrameTime; consequently successive accepted frames
are always at least 1000/F ms of callback time apart. -/
theorem scene_frame_pacing (F last now : ℚ) (hF : 0 < F) :
    (now - last < 1000 / F →
      Scene.renderStep (1000 / F) last now = (false, last, true)) ∧
    (1000 / F ≤ now - last →
      Scene.renderStep (1000 / F) last now = (true, now, true)) ∧
    (∀ nows : List ℚ, List.Chain (fun a b => 1000 / F ≤ b - a) last
      (Scene.acceptedTimes (1000 / F) last nows)) := by
  have hm : 0 < 1000 / F := by positivity
  refine ⟨fun h => ?_, fun h => ?_, fun nows => Scene.acceptedTimes_chain _ hm nows last⟩
  · simp [Scene.renderStep, hm, h]
  · simp [Scene.renderStep, hm, not_lt.mpr h]

/-- Witness for C2 at F = 24: a callback 30 ms after the last accepted frame is
skipped (30 < 1000/24), and one 50 ms after is accepted. -/
theorem scene_frame_pacing_witness :
    (0 : ℚ) < 24 ∧
    Scene.renderStep (1000 / 24) 0 30 = (false, 0, true) ∧
    Scene.renderStep (1000 / 24) 0 50 = (true, 50, true) :=
  ⟨by norm_num,
    (scene_frame_pacing 24 0 30 (by norm_num)).1 (by norm_num),
    (scene_frame_pacing 24 0 50 (by norm_num)).2.1 (by norm_num)⟩

/-- Counterexample to C6 as stated: with layout size 0 x 0 and device pixel
ratio 1, the claimed formula round(size * min(dpr, 2)) gives 0, but the code
clamps with max 1 and leaves a 1 x 1 canvas untouched. -/
theorem scene_resize_claim_counterexample :
    Scene.resizeCanvas 1 1 0 0 1 = (1, 1, false) ∧
    Scene.jsRound ((0 : ℚ) * min 1 2) = 0 ∧
    ((1 : ℤ), (1 : ℤ)) ≠ ((0 : ℤ), (0 : ℤ)) := by
  refine ⟨?_, ?_, by decide⟩
  · simp [Scene.resizeCanvas, Scene.jsRound]
    norm_num
  · norm_num [Scene.jsRound]

/-- Claim C6 (amended): after resizeCanvas the backing-store dimensions equal
max 1 (round (layoutSize * min dpr 2)) per axis, with a falsy (zero) device
pixel ratio replaced by 1, and the canvas width/height properties are
reassigned exactly when the computed pair differs from the current pair. -/
theorem scene_resize_spec (cw ch : ℤ) (w h d : ℚ) :
    (Scene.resizeCanvas cw ch w h d).1 = Scene.resizeSpecTarget w d ∧
    (Scene.resizeCanvas cw ch w h d).2.1 = Scene.resizeSpecTarget h d ∧
    ((Scene.resizeCanvas cw ch w h d).2.2 = true ↔
      ¬(cw = Scene.resizeSpecTarget w d ∧ ch = Scene.resizeSpecTarget h d)) := by
  have hdef : Scene.resizeCanvas cw ch w h d =
      if cw ≠ Scene.resizeSpecTarget w d ∨ ch ≠ Scene.resizeSpecTarget h d
      then (Scene.resizeSpecTarget w d, Scene.resizeSpecTarget h d, true)
      else (cw, ch, false) := rfl
  by_cases hc : cw ≠ Scene.resizeSpecTarget w d ∨ ch ≠ Scene.resizeSpecTarget h d
  · rw [hdef, if_pos hc]
    refine ⟨rfl, rfl, ?_⟩
    simp only [true_iff]
    tauto
  · rw [hdef, if_neg hc]
    push_neg at hc
    refine ⟨hc.1, hc.2, ?_⟩
    simp [hc.1, hc.2]

/-! ## Scene orchestrator: readiness gating of the render loop

initScene (scene.ts lines 43-70) starts the render loop in the then-callback
of Promise.all over the three texture-backed layer readiness promises
(windLayer.ready, pulseMaskLayer.ready, sakuraLayer.ready). Draw calls occur
only inside the render callback, which is scheduled only from that
then-callback or from a previous render invocation. We embed this as a
validity predicate on event traces (newest event first): each ready promise
settles at most once; the loop-start event requires all three fulfilled and
happens at most once; a draw event requires the loop to have started. -/

namespace Scene

/-- Events of the orchestration timeline. Index 0, 1, 2 stand for the wind,
pulse-mask and sakura layer readiness promises. -/
inductive ScnEv where
  | resolveReady (i : Fin 3)
  | rejectReady (i : Fin 3)
  | loopStart
  | drawFrame
  deriving DecidableEq

/-- Valid orchestration traces, newest event at the head. -/
inductive OrchTrace : List ScnEv → Prop where
  | nil : OrchTrace []
  | resolve (tr : List ScnEv) (i : Fin 3) (h : OrchTrace tr)
      (h1 : ScnEv.resolveReady i ∉ tr) (h2 : ScnEv.rejectReady i ∉ tr) :
      OrchTrace (ScnEv.resolveReady i :: tr)
  | reject (tr : List ScnEv) (i : Fin 3) (h : OrchTrace tr)
      (h1 : ScnEv.resolveReady i ∉ tr) (h2 : ScnEv.rejectReady i ∉ tr) :
      OrchTrace (ScnEv.rejectReady i :: tr)
  | start (tr : List ScnEv) (h : OrchTrace tr)
      (hall : ∀ i : Fin 3, ScnEv.resolveReady i ∈ tr)
      (honce : ScnEv.loopStart ∉ tr) :
      OrchTrace (ScnEv.loopStart :: tr)
  | draw (tr : List ScnEv) (h : OrchTrace tr)
      (hstarted : ScnEv.loopStart ∈ tr) :
      OrchTrace (ScnEv.drawFrame :: tr)

theorem orch_resolve_not_reject {tr : List ScnEv} (h : OrchTrace tr) :
    ∀ i : Fin 3, ScnEv.resolveReady i ∈ tr → ScnEv.rejectReady i ∉ tr := by
  induction h with
  | nil => intro i hi; cases hi
  | resolve tr j _ h1 h2 ih =>
    intro i hi hrej
    rcases List.mem_cons.mp hrej with hhead | htail
    · cases hhead
    · rcases List.mem_cons.mp hi with hhead | htail2
      · cases hhead
        exact h2 htail
      · exact ih i htail2 htail
  | reject tr j _ h1 h2 ih =>
    intro i hi hrej
    rcases List.mem_cons.mp hi with hhead | htail
    · cases hhead
    · rcases List.mem_cons.mp hrej with hhead | htail2
      · cases hhead
        exact h1 htail
      · exact ih i htail htail2
  | start tr _ hall honce ih =>
    intro i hi hrej
    rcases List.mem_cons.mp hi with hhead | htail
    · cases hhead
    · rcases List.mem_cons.mp hrej with hhead | htail2
      · cases hhead
      · exact ih i htail htail2
  | draw tr _ hstarted ih =>
    intro i hi hrej
    rcases List.mem_cons.mp hi with hhead | htail
    · cases hhead
    · rcases List.mem_cons.mp hrej with hhead | htail2
      · cases hhead
      · exact ih i htail htail2

theorem orch_start_resolved {tr : List ScnEv} (h : OrchTrace tr)
    (hs : ScnEv.loopStart ∈ tr) : ∀ i : Fin 3, ScnEv.resolveReady i ∈ tr := by
  induction h with
  | nil => cases hs
  | resolve tr j _ h1 h2 ih =>
    intro i
    rcases List.mem_cons.mp hs with hhead | htail
    · cases hhead
    · exact List.mem_cons_of_mem _ (ih htail i)
  | reject tr j _ h1 h2 ih =>
    intro i
    rcases List.mem_cons.mp hs with hhead | htail
    · cases hhead
    · exact List.mem_cons_of_mem _ (ih htail i)
  | start tr _ hall honce ih =>
    intro i
    exact List.mem_cons_of_mem _ (hall i)
  | draw tr _ hstarted ih =>
    intro i
    rcases List.mem_cons.mp hs with hhead | htail
    · cases hhead
    · exact List.mem_cons_of_mem _ (ih htail i)

theorem orch_draw_started {tr : List ScnEv} (h : OrchTrace tr)
    (hd : ScnEv.drawFrame ∈ tr) : ScnEv.loopStart ∈ tr := by
  induction h with
  | nil => cases hd
  | resolve tr j _ h1 h2 ih =>
    rcases List.mem_cons.mp hd with hhead | htail
    · cases hhead
    · exact List.mem_cons_of_mem _ (ih htail)
  | reject tr j _ h1 h2 ih =>
    rcases List.mem_cons.mp hd with hhead | htail
    · cases hhead
    · exact List.mem_cons_of_mem _ (ih htail)
  | start tr _ hall honce ih => exact List.mem_cons_self _ _
  | draw tr _ hstarted ih => exact List.mem_cons_of_mem _ hstarted

theorem orch_suffix : ∀ (pre tr : List ScnEv), OrchTrace (pre ++ tr) → OrchTrace tr := by
  intro pre
  induction pre with
  | nil => intro tr h; exact h
  | cons e pre ih =>
    intro tr h
    cases h with
    | resolve _ i h _ _ => exact ih tr h
    | reject _ i h _ _ => exact ih tr h
    | start _ h _ _ => exact ih tr h
    | draw _ h _ => exact ih tr h

end Scene

/-- Claim C1: in every valid orchestration trace, any draw event is preceded by
the resolution of all three layer readiness promises, and if any readiness
promise rejected then the render loop never started and no draw event occurs
anywhere in the trace. -/
theorem scene_loop_gated_on_readiness (tr : List Scene.ScnEv) (h : Scene.OrchTrace tr) :
    (∀ pre post, tr = pre ++ Scene.ScnEv.drawFrame :: post →
      ∀ i : Fin 3, Scene.ScnEv.resolveReady i ∈ post) ∧
    (∀ i : Fin 3, Scene.ScnEv.rejectReady i ∈ tr →
      Scene.ScnEv.loopStart ∉ tr ∧ Scene.ScnEv.drawFrame ∉ tr) := by
  constructor
  · intro pre post heq i
    have hsuf : Scene.OrchTrace (Scene.ScnEv.drawFrame :: post) := by
      apply Scene.orch_suffix pre
      rw [← heq]; exact h
    cases hsuf with
    | draw _ hpost hstarted => exact Scene.orch_start_resolved hpost hstarted i
  · intro i hrej
    have hnostart : Scene.ScnEv.loopStart ∉ tr := by
      intro hstart
      exact Scene.orch_resolve_not_reject h i
        (Scene.orch_start_resolved h hstart i) hrej
    refine ⟨hnostart, fun hdraw => hnostart (Scene.orch_draw_started h hdraw)⟩

/-- Witness for C1 on the concrete trace draw after loop start after all three
readiness resolutions (newest first). -/
theorem scene_loop_gated_on_readiness_witness :
    Scene.ScnEv.resolveReady 0 ∈ [Scene.ScnEv.loopStart,
      Scene.ScnEv.resolveReady 2, Scene.ScnEv.resolveReady 1,
      Scene.ScnEv.resolveReady 0] := by
  have h0 : Scene.OrchTrace [Scene.ScnEv.resolveReady 0] :=
    Scene.OrchTrace.resolve [] 0 Scene.OrchTrace.nil (by decide) (by decide)
  have h1 : Scene.OrchTrace [Scene.ScnEv.resolveReady 1, Scene.ScnEv.resolveReady 0] :=
    Scene.OrchTrace.resolve _ 1 h0 (by decide) (by decide)
  have h2 : Scene.OrchTrace [Scene.ScnEv.resolveReady 2, Scene.ScnEv.resolveReady 1,
      Scene.ScnEv.resolveReady 0] :=
    Scene.OrchTrace.resolve _ 2 h1 (by decide) (by decide)
  have h3 : Scene.OrchTrace [Scene.ScnEv.loopStart, Scene.ScnEv.resolveReady 2,
      Scene.ScnEv.resolveReady 1, Scene.ScnEv.resolveReady 0] :=
    Scene.OrchTrace.start _ h2 (by decide) (by decide)
  have h4 : Scene.OrchTrace (Scene.ScnEv.drawFrame :: [Scene.ScnEv.loopStart,
      Scene.ScnEv.resolveReady 2, Scene.ScnEv.resolveReady 1,
      Scene.ScnEv.resolveReady 0]) :=
    Scene.OrchTrace.draw _ h3 (by decide)
  exact (scene_loop_gated_on_readiness _ h4).1 [] _ rfl 0

/-! ## Fog band layer (src/fx/layers/fog-layer.ts) -/

namespace Fog

/-- FogFlow from fog-layer.ts: start/end points and height are required,
speed/density/feather are optional (TS optional fields become Option). The
field named end in the source is called fogEnd here because end is reserved. -/
structure FogFlow where
  start : ℝ × ℝ
  fogEnd : ℝ × ℝ
  height : ℝ
  speed : Option ℝ
  density : Option ℝ
  feather : Option ℝ

/-- A Partial FogFlow: every field optional, as accepted by setFlow. -/
structure FogFlowPatch where
  start : Option (ℝ × ℝ)
  fogEnd : Option (ℝ × ℝ)
  height : Option ℝ
  speed : Option ℝ
  density : Option ℝ
  feather : Option ℝ

/-- The default flow argument of createFogLayer. -/
noncomputable def defaultFlow : FogFlow :=
  ⟨(0, 0), (940, 0), 260, some 0.45, some 0.2, some 300⟩

/-- setFlow from fog-layer.ts lines 125-130: object-spread of the patch over
the current flow, so a field absent from the patch keeps its current value. -/
def setFlow (flow : FogFlow) (next : FogFlowPatch) : FogFlow where
  start := next.start.getD flow.start
  fogEnd := next.fogEnd.getD flow.fogEnd
  height := next.height.getD flow.height
  speed := match next.speed with | some v => some v | none => flow.speed
  density := match next.density with | some v => some v | none => flow.density
  feather := match next.feather with | some v => some v | none => flow.feather

/-- The uniform values the fog draw call uploads for a given flow state and
time (fog-layer.ts lines 109-123): speed defaults to 0.45, density to 0.35,
feather to height * 0.5 when unset. -/
structure FogUniforms where
  time : ℝ
  resolution : ℝ × ℝ
  start : ℝ × ℝ
  fogEnd : ℝ × ℝ
  height : ℝ
  speed : ℝ
  density : ℝ
  feather : ℝ

/-- Uniform assignment performed by the fog draw closure. -/
noncomputable def fogDrawUniforms (referenceSize : ℝ × ℝ) (flow : FogFlow) (time : ℝ) :
    FogUniforms where
  time := time
  resolution := referenceSize
  start := flow.start
  fogEnd := flow.fogEnd
  height := flow.height
  speed := flow.speed.getD 0.45
  density := flow.density.getD 0.35
  feather := flow.feather.getD (flow.height * 0.5)

end Fog

/-- Counterexample to C7 as stated: on a flow state with no explicit feather
value, a setFlow call whose only field is height changes the feather uniform
of the next draw call (it defaults to height * 0.5), so not every other
uniform keeps the value it would have had. -/
theorem fog_setFlow_claim_counterexample :
    (Fog.fogDrawUniforms (1920, 1080)
      ⟨(0, 0), (940, 0), 260, some 0.45, some 0.2, none⟩ 0).feather = 130 ∧
    (Fog.fogDrawUniforms (1920, 1080)
      (Fog.setFlow ⟨(0, 0), (940, 0), 260, some 0.45, some 0.2, none⟩
        ⟨none, none, some 100, none, none, none⟩) 0).feather = 50 ∧
    (130 : ℝ) ≠ 50 := by
  refine ⟨?_, ?_, by norm_num⟩ <;> norm_num [Fog.fogDrawUniforms, Fog.setFlow]

/-- Claim C7 (amended): a setFlow call changes only the fields it provides:
for every field absent from the patch, that field of the flow state and the
corresponding uniform of the next draw call are unchanged - except that the
feather uniform also changes when the patch sets height while the current
state has no explicit feather value, because the feather uniform then
defaults to height * 0.5. -/
theorem fog_setFlow_single_field (ref : ℝ × ℝ) (t : ℝ)
    (s : Fog.FogFlow) (p : Fog.FogFlowPatch) :
    (p.start = none → (Fog.setFlow s p).start = s.start ∧
      (Fog.fogDrawUniforms ref (Fog.setFlow s p) t).start =
        (Fog.fogDrawUniforms ref s t).start) ∧
    (p.fogEnd = none → (Fog.setFlow s p).fogEnd = s.fogEnd ∧
      (Fog.fogDrawUniforms ref (Fog.setFlow s p) t).fogEnd =
        (Fog.fogDrawUniforms ref s t).fogEnd) ∧
    (p.height = none → (Fog.setFlow s p).height = s.height ∧
      (Fog.fogDrawUniforms ref (Fog.setFlow s p) t).height =
        (Fog.fogDrawUniforms ref s t).height) ∧
    (p.speed = none → (Fog.setFlow s p).speed = s.speed ∧
      (Fog.fogDrawUniforms ref (Fog.setFlow s p) t).speed =
        (Fog.fogDrawUniforms ref s t).speed) ∧
    (p.density = none → (Fog.setFlow s p).density = s.density ∧
      (Fog.fogDrawUniforms ref (Fog.setFlow s p) t).density =
        (Fog.fogDrawUniforms ref s t).density) ∧
    (p.feather = none → (Fog.setFlow s p).feather = s.feather ∧
      (p.height = none ∨ s.feather ≠ none →
        (Fog.fogDrawUniforms ref (Fog.setFlow s p) t).feather =
          (Fog.fogDrawUniforms ref s t).feather)) := by
  refine ⟨fun h => ?_, fun h => ?_, fun h => ?_, fun h => ?_, fun h => ?_, fun h => ?_⟩
  · exact ⟨by simp [Fog.setFlow, h], by simp [Fog.fogDrawUniforms, Fog.setFlow, h]⟩
  · exact ⟨by simp [Fog.setFlow, h], by simp [Fog.fogDrawUniforms, Fog.setFlow, h]⟩
  · exact ⟨by simp [Fog.setFlow, h], by simp [Fog.fogDrawUniforms, Fog.setFlow, h]⟩
  · exact ⟨by simp [Fog.setFlow, h], by simp [Fog.fogDrawUniforms, Fog.setFlow, h]⟩
  · exact ⟨by simp [Fog.setFlow, h], by simp [Fog.fogDrawUniforms, Fog.setFlow, h]⟩
  · refine ⟨by simp [Fog.setFlow, h], fun hc => ?_⟩
    rcases hc with hh | hf
    · simp [Fog.fogDrawUniforms, Fog.setFlow, h, hh]
    · obtain ⟨f, hval⟩ := Option.ne_none_iff_exists.mp hf
      simp [Fog.fogDrawUniforms, Fog.setFlow, h, ← hval]

/-- Witness for C7: a density-only patch on the default flow leaves the flow
state's start field and the feather uniform of the next draw call unchanged. -/
theorem fog_setFlow_single_field_witness :
    (Fog.setFlow Fog.defaultFlow ⟨none, none, none, none, some 0.5, none⟩).start =
      Fog.defaultFlow.start ∧
    (Fog.fogDrawUniforms (1920, 1080)
        (Fog.setFlow Fog.defaultFlow ⟨none, none, none, none, some 0.5, none⟩) 0).feather =
      (Fog.fogDrawUniforms (1920, 1080) Fog.defaultFlow 0).feather := by
  have h := fog_setFlow_single_field (1920, 1080) 0 Fog.defaultFlow
    ⟨none, none, none, none, some 0.5, none⟩
  exact ⟨(h.1 rfl).1, (h.2.2.2.2.2 rfl).2 (Or.inl rfl)⟩

/-! ## Wind-sway sprite layer (src/fx/layers/flying-layers.ts) -/

namespace Wind

/-- A rect mask in UV space: origin (x, y), size (w, h), and feather width.
Merges the uRects[i] vec4 and the uRectFeather[i] float of the shader. -/
structure WindRect where
  x : ℝ
  y : ℝ
  w : ℝ
  h : ℝ
  feather : ℝ

/-- The zero rect used by buildRectUniforms to pad the uniform arrays past
rectCount. -/
def zeroRect : WindRect := ⟨0, 0, 0, 0, 0⟩

/-- The shader constant PI (the float literal 3.141592653589793, idealized). -/
noncomputable def PI : ℝ := Real.pi

/-- Feathered inside/outside test of the fragment shader (lines 90-92):
a smoothstep band per axis, multiplied. -/
noncomputable def rectMask (r : WindRect) (uv : ℝ × ℝ) : ℝ :=
  let insideX := Glsl.smoothstep (r.x - r.feather) (r.x + r.feather) uv.1 *
    (1 - Glsl.smoothstep (r.x + r.w - r.feather) (r.x + r.w + r.feather) uv.1)
  let insideY := Glsl.smoothstep (r.y - r.feather) (r.y + r.feather) uv.2 *
    (1 - Glsl.smoothstep (r.y + r.h - r.feather) (r.y + r.h + r.feather) uv.2)
  insideX * insideY

/-- The directional sway of one rect (lines 94-96): a sine of the rect
center coordinate, the per-axis frequency and the animated phase. -/
noncomputable def rectSway (uFreq uSpeed : ℝ × ℝ) (uTime : ℝ) (r : WindRect) : ℝ × ℝ :=
  let centerX := r.x + r.w * 0.5
  let centerY := r.y + r.h * 0.5
  (Real.sin (centerY * uFreq.1 * 2 * PI + uTime * uSpeed.1),
   Real.sin (centerX * uFreq.2 * 2 * PI + uTime * uSpeed.2 + PI * 0.5))

/-- One loop iteration's contribution to the accumulated offset (lines 93-98):
sway scaled by the rect mask, guarded by mask > 0.0001. -/
noncomputable def rectContribution (uFreq uSpeed : ℝ × ℝ) (uTime : ℝ)
    (r : WindRect) (uv : ℝ × ℝ) : ℝ × ℝ :=
  let m := rectMask r uv
  if 0.0001 < m then
    ((rectSway uFreq uSpeed uTime r).1 * m, (rectSway uFreq uSpeed uTime r).2 * m)
  else (0, 0)

/-- The accumulated sway offset of the fragment shader loop (lines 80-98):
iterates i = 0..7, breaking at uRectCount, accumulating with vector +=.
Indexing past the given list yields the zero padding rect. -/
noncomputable def windOffset (uFreq uSpeed : ℝ × ℝ) (uTime : ℝ)
    (rects : List WindRect) (uRectCount : ℕ) (uv : ℝ × ℝ) : ℝ × ℝ :=
  (List.range (min uRectCount 8)).foldl
    (fun acc i =>
      (acc.1 + (rectContribution uFreq uSpeed uTime (rects.getD i zeroRect) uv).1,
       acc.2 + (rectContribution uFreq uSpeed uTime (rects.getD i zeroRect) uv).2))
    (0, 0)

/-- RGBA color as produced by the fragment shader. -/
abbrev Vec4 := ℝ × ℝ × ℝ × ℝ

/-- Uniforms of the wind fragment shader. -/
structure WindUniforms where
  amp : ℝ × ℝ
  freq : ℝ × ℝ
  speed : ℝ × ℝ
  time : ℝ
  rectCount : ℕ
  rects : List WindRect
  debugRects : ℝ
  rectBorder : ℝ
  debugColor : ℝ × ℝ × ℝ

/-- Debug border strength of one rect (lines 100-107). -/
noncomputable def rectBorderStrength (uRectBorder : ℝ) (r : WindRect) (uv : ℝ × ℝ) : ℝ :=
  let inside := Glsl.step r.x uv.1 * Glsl.step r.y uv.2 *
    Glsl.step uv.1 (r.x + r.w) * Glsl.step uv.2 (r.y + r.h)
  let distEdge := min (min |uv.1 - r.x| |uv.1 - (r.x + r.w)|)
    (min |uv.2 - r.y| |uv.2 - (r.y + r.h)|)
  inside * (1 - Glsl.smoothstep 0 uRectBorder distEdge)

/-- Debug border mask accumulated with max over the same loop. -/
noncomputable def borderMask (u : WindUniforms) (uv : ℝ × ℝ) : ℝ :=
  (List.range (min u.rectCount 8)).foldl
    (fun acc i => max acc (rectBorderStrength u.rectBorder (u.rects.getD i zeroRect) uv))
    0

/-- The wind fragment shader main (lines 72-117): early pass-through when no
rects are configured and debug is off; otherwise sample at the swayed UV and
optionally mix in the debug border color. -/
noncomputable def windFragment (u : WindUniforms) (tex : ℝ × ℝ → Vec4) (vUv : ℝ × ℝ) : Vec4 :=
  if u.rectCount = 0 ∧ u.debugRects < 0.5 then tex vUv
  else
    let offset := windOffset u.freq u.speed u.time u.rects u.rectCount vUv
    let uv := (vUv.1 + offset.1 * u.amp.1, vUv.2 + offset.2 * u.amp.2)
    let c := tex uv
    if 0.5 < u.debugRects then
      let bm := borderMask u vUv
      (Glsl.mix c.1 u.debugColor.1 bm,
       Glsl.mix c.2.1 u.debugColor.2.1 bm,
       Glsl.mix c.2.2.1 u.debugColor.2.2 bm,
       max c.2.2.2 bm)
    else c

end Wind

namespace Wind

theorem foldl_pair_add (f : ℕ → ℝ × ℝ) :
    ∀ (n : ℕ) (init : ℝ × ℝ),
      (List.range n).foldl (fun acc i => (acc.1 + (f i).1, acc.2 + (f i).2)) init =
        (init.1 + Finset.sum (Finset.range n) (fun i => (f i).1),
         init.2 + Finset.sum (Finset.range n) (fun i => (f i).2)) := by
  intro n
  induction n with
  | zero => intro init; simp
  | succ n ih =>
    intro init
    rw [List.range_succ, List.foldl_append, ih init]
    simp only [List.foldl, Finset.sum_range_succ]
    refine Prod.ext ?_ ?_ <;> simp <;> ring

theorem wind_mask_unit_center :
    rectMask ⟨0, 0, 1, 1, 1 / 4⟩ ((1 : ℝ) / 2, (1 : ℝ) / 2) = 1 := by
  simp only [rectMask]
  rw [Glsl.smoothstep_of_ge ((0 : ℝ) - 1 / 4) (0 + 1 / 4) (1 / 2) (by norm_num) (by norm_num)]
  rw [Glsl.smoothstep_of_le ((0 : ℝ) + 1 - 1 / 4) (0 + 1 + 1 / 4) (1 / 2) (by norm_num)
    (by norm_num)]
  norm_num

theorem wind_sway_unit :
    rectSway (0, 0) (1, 0) (Real.pi / 2) ⟨0, 0, 1, 1, 1 / 4⟩ = (1, 1) := by
  simp only [rectSway, PI]
  have h1 : ((0 : ℝ) + 1 * 0.5) * 0 * 2 * Real.pi + Real.pi / 2 * 1 = Real.pi / 2 := by ring
  have h2 : ((0 : ℝ) + 1 * 0.5) * 0 * 2 * Real.pi + Real.pi / 2 * 0 + Real.pi * 0.5 =
      Real.pi / 2 := by ring
  rw [h1, h2, Real.sin_pi_div_two]

theorem wind_contribution_unit :
    rectContribution (0, 0) (1, 0) (Real.pi / 2) ⟨0, 0, 1, 1, 1 / 4⟩
      ((1 : ℝ) / 2, (1 : ℝ) / 2) = (1, 1) := by
  simp only [rectContribution]
  rw [wind_mask_unit_center, wind_sway_unit, if_pos (by norm_num : (0.0001 : ℝ) < 1)]
  norm_num

end Wind

/-- Claim C3: at a fragment inside two overlapping rect masks, the sway offset
is the arithmetic sum of each rect's individual feathered contribution, each
contribution being the rect's center-derived sine sway scaled by that rect's
mask value. -/
theorem wind_overlap_sway_sum (uFreq uSpeed : ℝ × ℝ) (uTime : ℝ)
    (r1 r2 : Wind.WindRect) (uv : ℝ × ℝ)
    (h1 : 0.0001 < Wind.rectMask r1 uv) (h2 : 0.0001 < Wind.rectMask r2 uv) :
    Wind.windOffset uFreq uSpeed uTime [r1, r2] 2 uv =
      ((Wind.rectSway uFreq uSpeed uTime r1).1 * Wind.rectMask r1 uv +
        (Wind.rectSway uFreq uSpeed uTime r2).1 * Wind.rectMask r2 uv,
       (Wind.rectSway uFreq uSpeed uTime r1).2 * Wind.rectMask r1 uv +
        (Wind.rectSway uFreq uSpeed uTime r2).2 * Wind.rectMask r2 uv) := by
  have hr : List.range (min 2 8) = [0, 1] := by decide
  simp only [Wind.windOffset, hr, List.foldl, List.getD, List.get?, Option.getD_some]
  simp only [Wind.rectContribution]
  rw [if_pos h1, if_pos h2]
  refine Prod.ext ?_ ?_ <;> simp

/-- Witness for C3 at two identical unit rects fully containing the fragment
(1/2, 1/2), where each mask is 1 and each sway is (1, 1): the combined offset
is (2, 2). -/
theorem wind_overlap_sway_sum_witness :
    (0.0001 : ℝ) < 1 ∧
    Wind.windOffset (0, 0) (1, 0) (Real.pi / 2)
      [⟨0, 0, 1, 1, 1 / 4⟩, ⟨0, 0, 1, 1, 1 / 4⟩] 2 ((1 : ℝ) / 2, (1 : ℝ) / 2) = (2, 2) := by
  have hm := Wind.wind_mask_unit_center
  have hs := Wind.wind_sway_unit
  have h := wind_overlap_sway_sum (0, 0) (1, 0) (Real.pi / 2)
    ⟨0, 0, 1, 1, 1 / 4⟩ ⟨0, 0, 1, 1, 1 / 4⟩ ((1 : ℝ) / 2, (1 : ℝ) / 2)
    (by rw [hm]; norm_num) (by rw [hm]; norm_num)
  refine ⟨by norm_num, ?_⟩
  rw [h, hm, hs]
  norm_num

/-- Counterexample to C4 as stated: at a fragment inside two identical unit
rects, each individual contribution is (1, 1), so the claimed maximum is
(1, 1), but the shader accumulates (2, 2). -/
theorem wind_overlap_max_counterexample :
    Wind.windOffset (0, 0) (1, 0) (Real.pi / 2)
      [⟨0, 0, 1, 1, 1 / 4⟩, ⟨0, 0, 1, 1, 1 / 4⟩] 2 ((1 : ℝ) / 2, (1 : ℝ) / 2) = (2, 2) ∧
    Wind.windOffset (0, 0) (1, 0) (Real.pi / 2)
      [⟨0, 0, 1, 1, 1 / 4⟩] 1 ((1 : ℝ) / 2, (1 : ℝ) / 2) = (1, 1) ∧
    ((2 : ℝ), (2 : ℝ)) ≠ ((1 : ℝ), (1 : ℝ)) := by
  have hc := Wind.wind_contribution_unit
  refine ⟨?_, ?_, by norm_num [Prod.ext_iff]⟩
  · have hr : List.range (min 2 8) = [0, 1] := by decide
    simp only [Wind.windOffset, hr, List.foldl, List.getD, List.get?, Option.getD_some]
    rw [hc]
    norm_num
  · have hr : List.range (min 1 8) = [0] := by decide
    simp only [Wind.windOffset, hr, List.foldl, List.getD, List.get?, Option.getD_some]
    rw [hc]
    norm_num

/-- Claim C4 (amended): at any fragment the combined sway contribution is the
sum (not the maximum) of the individual per-rect contributions over the
processed rects. -/
theorem wind_offset_is_sum (uFreq uSpeed : ℝ × ℝ) (uTime : ℝ)
    (rects : List Wind.WindRect) (n : ℕ) (uv : ℝ × ℝ) :
    Wind.windOffset uFreq uSpeed uTime rects n uv =
      (Finset.sum (Finset.range (min n 8))
        (fun i => (Wind.rectContribution uFreq uSpeed uTime
          (rects.getD i Wind.zeroRect) uv).1),
       Finset.sum (Finset.range (min n 8))
        (fun i => (Wind.rectContribution uFreq uSpeed uTime
          (rects.getD i Wind.zeroRect) uv).2)) := by
  simp only [Wind.windOffset]
  rw [Wind.foldl_pair_add
    (fun i => Wind.rectContribution uFreq uSpeed uTime (rects.getD i Wind.zeroRect) uv)]
  norm_num

/-- Claim C9: with zero configured rect masks and debug rendering disabled, the
wind fragment shader output is the texture sampled at the unmodified UV. -/
theorem wind_zero_rects_passthrough (u : Wind.WindUniforms)
    (tex : ℝ × ℝ → Wind.Vec4) (uv : ℝ × ℝ)
    (h1 : u.rectCount = 0) (h2 : u.debugRects < 0.5) :
    Wind.windFragment u tex uv = tex uv := by
  simp only [Wind.windFragment]
  rw [if_pos ⟨h1, h2⟩]

/-- Witness for C9 on a concrete uniform block with no rects and debug off. -/
theorem wind_zero_rects_passthrough_witness :
    Wind.windFragment ⟨(0, 0), (0, 0), (0, 0), 0, 0, [], 0, 1, (0, 0, 0)⟩
      (fun _ => (0, 0, 0, 1)) (0, 0) = (0, 0, 0, 1) :=
  wind_zero_rects_passthrough _ _ _ rfl (by norm_num)

/-! ## Instanced sakura particle layer (src/fx/layers/petal-particles.ts) -/

namespace Sakura

/-- Global wind settings for the petals (petal-particles.ts line 26). -/
noncomputable def windSettingsDir : ℝ × ℝ := (1, 0.15)

noncomputable def windSettingsAmp : ℝ := 18

noncomputable def windSettingsFreq : ℝ := 6.0

noncomputable def windSettingsSpeed : ℝ := 1.4

/-- Travel progress of one instance (particle vertex shader line 61):
fract(uTime * aInstanceSpeed + aInstanceSeed). -/
noncomputable def particleProgress (uTime aInstanceSpeed aInstanceSeed : ℝ) : ℝ :=
  Glsl.fract (uTime * aInstanceSpeed + aInstanceSeed)

/-- Instance position before wind sway (line 62):
aInstancePos + aInstanceVel * progress. -/
noncomputable def particleBasePos (aInstancePos aInstanceVel : ℝ × ℝ)
    (progress : ℝ) : ℝ × ℝ :=
  (aInstancePos.1 + aInstanceVel.1 * progress, aInstancePos.2 + aInstanceVel.2 * progress)

/-- Varyings and clip position produced by the particle vertex shader. -/
structure ParticleVertexOut where
  glPosition : ℝ × ℝ
  vUv : ℝ × ℝ
  vAlpha : ℝ
  vLife : ℝ

/-- The particle vertex shader main (lines 59-90): flow-path motion, wind
sway, 3-axis rotation of the scaled local quad corner, cheap perspective
divide and NDC mapping. -/
noncomputable def particleVertexMain (uResolution : ℝ × ℝ) (uTime : ℝ)
    (uWind : ℝ × ℝ) (uWindFreq uWindSpeed uWindAmp : ℝ)
    (aPosition aUv aInstancePos aInstanceVel aInstanceSize : ℝ × ℝ)
    (aInstanceRot aInstanceRotSpeed : ℝ × ℝ × ℝ)
    (aInstanceSpeed aInstanceDepth aInstanceSeed : ℝ) : ParticleVertexOut :=
  let progress := particleProgress uTime aInstanceSpeed aInstanceSeed
  let pos0 := particleBasePos aInstancePos aInstanceVel progress
  let wind := Real.sin ((pos0.2 / uResolution.2) * uWindFreq + uTime * uWindSpeed +
    aInstanceSeed)
  let pos := (pos0.1 + uWind.1 * wind * uWindAmp, pos0.2 + uWind.2 * wind * uWindAmp)
  let scaleBoost := Glsl.mix 0.6 1.3 progress
  let l0 : ℝ × ℝ × ℝ := (aPosition.1 * aInstanceSize.1 * scaleBoost,
    aPosition.2 * aInstanceSize.2 * scaleBoost, -(aInstanceDepth * progress))
  let rot : ℝ × ℝ × ℝ := (aInstanceRot.1 + aInstanceRotSpeed.1 * uTime,
    aInstanceRot.2.1 + aInstanceRotSpeed.2.1 * uTime,
    aInstanceRot.2.2 + aInstanceRotSpeed.2.2 * uTime)
  let cx := Real.cos rot.1
  let sx := Real.sin rot.1
  let cy := Real.cos rot.2.1
  let sy := Real.sin rot.2.1
  let cz := Real.cos rot.2.2
  let sz := Real.sin rot.2.2
  let l1 : ℝ × ℝ × ℝ := (l0.1, l0.2.1 * cx - l0.2.2 * sx, l0.2.1 * sx + l0.2.2 * cx)
  let l2 : ℝ × ℝ × ℝ := (l1.1 * cy + l1.2.2 * sy, l1.2.1, -(l1.1 * sy) + l1.2.2 * cy)
  let l3 : ℝ × ℝ × ℝ := (l2.1 * cz - l2.2.1 * sz, l2.1 * sz + l2.2.1 * cz, l2.2.2)
  let perspective := 1 / (1 + l3.2.2 * 0.002)
  let offset := (l3.1 * perspective, l3.2.1 * perspective)
  let ndc := ((pos.1 / uResolution.1) * 2 - 1, 1 - (pos.2 / uResolution.2) * 2)
  let ndcOffset := (offset.1 / uResolution.1 * 2, -(offset.2 / uResolution.2 * 2))
  { glPosition := (ndc.1 + ndcOffset.1, ndc.2 + ndcOffset.2)
    vUv := aUv
    vAlpha := Glsl.clamp perspective 0.45 1
    vLife := progress }

end Sakura

/-- Claim C5: the travel progress of a particle instance with speed s and seed
k at time t is fract (s * t + k), it lies in [0, 1), and the instance position
before wind sway is the spawn position plus the velocity times that
progress. -/
theorem sakura_progress_spec (t s k : ℝ) (ipos ivel : ℝ × ℝ) (h : 0 ≤ t) :
    Sakura.particleProgress t s k = Int.fract (s * t + k) ∧
    0 ≤ Sakura.particleProgress t s k ∧
    Sakura.particleProgress t s k < 1 ∧
    Sakura.particleBasePos ipos ivel (Sakura.particleProgress t s k) =
      (ipos.1 + ivel.1 * Int.fract (s * t + k),
       ipos.2 + ivel.2 * Int.fract (s * t + k)) := by
  have he : Sakura.particleProgress t s k = Int.fract (s * t + k) := by
    simp only [Sakura.particleProgress, Glsl.fract, mul_comm]
  refine ⟨he, ?_, ?_, ?_⟩
  · rw [he]; exact Int.fract_nonneg _
  · rw [he]; exact Int.fract_lt_one _
  · rw [he]; rfl

/-- Witness for C5 at t = 0, s = 0.05, k = 0.25 and a concrete instance. -/
theorem sakura_progress_spec_witness :
    (0 : ℝ) ≤ 0 ∧
    (Sakura.particleProgress 0 0.05 0.25 = Int.fract ((0.05 : ℝ) * 0 + 0.25) ∧
      0 ≤ Sakura.particleProgress 0 0.05 0.25 ∧
      Sakura.particleProgress 0 0.05 0.25 < 1 ∧
      Sakura.particleBasePos (280, 0) (100, 90) (Sakura.particleProgress 0 0.05 0.25) =
        ((280 : ℝ) + 100 * Int.fract ((0.05 : ℝ) * 0 + 0.25),
         (0 : ℝ) + 90 * Int.fract ((0.05 : ℝ) * 0 + 0.25))) :=
  ⟨le_refl 0, sakura_progress_spec 0 0.05 0.25 (280, 0) (100, 90) (le_refl 0)⟩

/-! ## Per-frame draw calls as GL command lists

Each layer's draw closure is embedded as a function from its private state to
the list of WebGL commands it issues. Before the layer's readiness promise
resolves, that state is still the initial value set at layer creation
(null for the pulse mask, an empty array for the wind sprites and the
particle groups). -/

/-- Frame-time WebGL commands, coarse-grained with the argument values that
the closures compute. -/
inductive GLCall where
  | useProgram (id : ℕ)
  | bindBuffer (id : ℕ)
  | enableVertexAttribArray (loc : ℕ)
  | vertexAttribPointer (loc size stride off : ℕ)
  | activeTexture (unit : ℕ)
  | bindTexture (id : ℕ)
  | uniform1i (v : ℤ)
  | uniform1f (v : ℝ)
  | uniform2f (a b : ℝ)
  | uniform3f (a b c : ℝ)
  | uniform4fv (vs : List ℝ)
  | uniform1fv (vs : List ℝ)
  | drawArrays (first count : ℕ)
  | bindVertexArray (id : ℕ)
  | bindVertexArrayNull
  | drawArraysInstanced (first count instances : ℕ)

namespace Pulse

/-- Internal state of the pulse mask layer after its texture load
(pulse-mask.ts lines 9-18). -/
structure PulseMaskLayer where
  texture : ℕ
  width : ℝ
  height : ℝ
  x : ℝ
  y : ℝ

/-- The pulse mask draw closure (pulse-mask.ts lines 108-133): a guard on the
not-yet-populated layer state, then program/buffer setup, centered placement
uniforms and one quad draw. -/
noncomputable def draw (referenceSize : ℝ × ℝ) (layer : Option PulseMaskLayer)
    (time : ℝ) : List GLCall :=
  match layer with
  | none => []
  | some l =>
    let centerX := l.x + l.width * 0.5
    let centerY := l.y + l.height * 0.5
    let translateX := (centerX / referenceSize.1) * 2 - 1
    let translateY := 1 - (centerY / referenceSize.2) * 2
    let scaleX := l.width / referenceSize.1
    let scaleY := l.height / referenceSize.2
    [GLCall.useProgram 0, GLCall.bindBuffer 0,
      GLCall.enableVertexAttribArray 0, GLCall.vertexAttribPointer 0 2 16 0,
      GLCall.enableVertexAttribArray 1, GLCall.vertexAttribPointer 1 2 16 8,
      GLCall.activeTexture 0, GLCall.bindTexture l.texture,
      GLCall.uniform1i 0, GLCall.uniform1f time,
      GLCall.uniform2f translateX translateY, GLCall.uniform2f scaleX scaleY,
      GLCall.drawArrays 0 4]

end Pulse

namespace Wind

/-- One wind sprite with its texture, reference-space placement, wind
parameters and prebuilt rect uniform data (flying-layers.ts lines 10-33). -/
structure WindSprite where
  texture : ℕ
  width : ℝ
  height : ℝ
  x : ℝ
  y : ℝ
  amp : ℝ × ℝ
  freq : ℝ × ℝ
  speed : ℝ × ℝ
  rectCount : ℕ
  rectData : Option (List ℝ)
  rectFeatherData : Option (List ℝ)

/-- DEBUG_RECTS from flying-layers.ts line 38. -/
def DEBUG_RECTS : Bool := false

/-- Commands issued for one sprite in the forEach of the wind draw closure
(flying-layers.ts lines 277-303); index is the sprite's array position. -/
noncomputable def drawSprite (referenceSize : ℝ × ℝ) (time : ℝ) (index : ℕ)
    (l : WindSprite) : List GLCall :=
  let centerX := l.x + l.width * 0.5
  let centerY := l.y + l.height * 0.5
  let translateX := (centerX / referenceSize.1) * 2 - 1
  let translateY := 1 - (centerY / referenceSize.2) * 2
  let scaleX := l.width / referenceSize.1
  let scaleY := l.height / referenceSize.2
  [GLCall.activeTexture 0, GLCall.bindTexture l.texture, GLCall.uniform1i 0,
    GLCall.uniform2f l.amp.1 l.amp.2, GLCall.uniform2f l.freq.1 l.freq.2,
    GLCall.uniform2f l.speed.1 l.speed.2,
    GLCall.uniform2f translateX translateY, GLCall.uniform2f scaleX scaleY,
    GLCall.uniform1f (if DEBUG_RECTS then 1 else 0),
    GLCall.uniform1f (3 / min l.width l.height),
    GLCall.uniform3f 0.15 0.95 0.25,
    GLCall.uniform1i (l.rectCount : ℤ)] ++
  (match l.rectData, l.rectFeatherData with
    | some rd, some rf => [GLCall.uniform4fv rd, GLCall.uniform1fv rf]
    | _, _ => []) ++
  [GLCall.uniform1f (time + (index : ℝ) * 0.15), GLCall.drawArrays 0 4]

/-- Helper for the indexed forEach over the sprite array. -/
noncomputable def drawSprites (referenceSize : ℝ × ℝ) (time : ℝ) :
    ℕ → List WindSprite → List GLCall
  | _, [] => []
  | index, l :: rest =>
    drawSprite referenceSize time index l ++ drawSprites referenceSize time (index + 1) rest

/-- The wind draw closure (flying-layers.ts lines 268-304): a guard on the
still-empty sprite array, then program/buffer setup and the per-sprite
loop. -/
noncomputable def draw (referenceSize : ℝ × ℝ) (layers : List WindSprite)
    (time : ℝ) : List GLCall :=
  match layers with
  | [] => []
  | _ :: _ =>
    [GLCall.useProgram 0, GLCall.bindBuffer 0,
      GLCall.enableVertexAttribArray 0, GLCall.vertexAttribPointer 0 2 16 0,
      GLCall.enableVertexAttribArray 1, GLCall.vertexAttribPointer 1 2 16 8] ++
    drawSprites referenceSize time 0 layers

end Wind

namespace Sakura

/-- One per-texture instanced particle batch (petal-particles.ts lines 11-15). -/
structure ParticleGroup where
  texture : ℕ
  count : ℕ
  vao : ℕ

/-- The sakura draw closure (petal-particles.ts lines 254-273): a guard on the
still-empty group array, then global wind uniforms and an instanced draw per
group. -/
noncomputable def draw (referenceSize : ℝ × ℝ) (particleGroups : List ParticleGroup)
    (time : ℝ) : List GLCall :=
  match particleGroups with
  | [] => []
  | _ :: _ =>
    [GLCall.useProgram 1,
      GLCall.uniform2f referenceSize.1 referenceSize.2,
      GLCall.uniform1f time,
      GLCall.uniform2f windSettingsDir.1 windSettingsDir.2,
      GLCall.uniform1f windSettingsFreq,
      GLCall.uniform1f windSettingsSpeed,
      GLCall.uniform1f windSettingsAmp] ++
    (particleGroups.map (fun g =>
      [GLCall.activeTexture 0, GLCall.bindTexture g.texture, GLCall.uniform1i 0,
        GLCall.bindVertexArray g.vao, GLCall.drawArraysInstanced 0 4 g.count])).flatten ++
    [GLCall.bindVertexArrayNull]

end Sakura

/-- Claim C10: for each texture-backed layer, calling draw before its
readiness promise has resolved (so with the initial layer state: null for the
pulse mask, empty arrays for the wind sprites and particle groups) issues no
GPU command at any time. -/
theorem draws_before_ready_noop (referenceSize : ℝ × ℝ) (t : ℝ) :
    Pulse.draw referenceSize none t = [] ∧
    Wind.draw referenceSize [] t = [] ∧
    Sakura.draw referenceSize [] t = [] :=
  ⟨rfl, rfl, rfl⟩

end SpringPetals
